import Mathlib

/-!
Shallow embedding of the token-cookie core of `freecaptcha`
(`src/freecaptcha/api_server.py`) and verification of the frozen claims
about it.

Modelling conventions:
- Python byte strings are `List Nat` (one entry per byte; all bytes the
  source produces are below 256).
- Python `str` is Lean `String`; `.encode()` maps each character to its
  code point, which coincides with UTF-8 on the ASCII strings the source
  builds.
- Python dicts of cookies are association lists `List (String × String)`;
  lookup takes the first matching key (the dicts built by the source never
  repeat a key).
- A Python expression that can raise is a value of `Except PyExn _`; a
  `try/except` block is a `match` on that value.  Statement order inside a
  `do` block follows the source line by line, so the first raising
  statement short-circuits exactly as in Python.
- Nondeterministic inputs (`os.urandom`, `datetime.utcnow()`) are explicit
  parameters; library routines whose internals the claims never reach
  (AES-GCM encrypt and decrypt, `base64.urlsafe_b64decode`,
  `datetime.fromisoformat`, the clock) are collected in a `PyLib` record
  so every theorem quantifies over them.
-/

/-- Python exception values, restricted to the kinds the embedded code can
raise.  `strOfExn` models `str(e)`; the exact wording of CPython messages
is immaterial to every claim (only inequality with the marker string
matters), so quote characters are omitted. -/
inductive PyExn where
  | keyError (k : String)
  | typeError (msg : String)
  | nameError (msg : String)
  | valueError (msg : String)
  | assertionError
  | invalidTag
  | unicodeError
  | osError (msg : String)
deriving DecidableEq

/-- Models Python `str(e)` on the exceptions above.  `str(AssertionError())`
is the empty string; for the others the message is returned. -/
def strOfExn : PyExn → String
  | .keyError k => k
  | .typeError m => m
  | .nameError m => m
  | .valueError m => m
  | .assertionError => ""
  | .invalidTag => ""
  | .unicodeError => "invalid utf-8"
  | .osError m => m

/-- The base64url alphabet of RFC 4648, the one `base64.urlsafe_b64encode`
uses: `A-Z`, `a-z`, `0-9`, `-`, `_`. -/
def b64Alphabet : List Char :=
  "ABCDEFGHIJKLMNOPQRSTUVWXYZabcdefghijklmnopqrstuvwxyz0123456789-_".toList

/-- Character for one 6-bit group (index taken modulo nothing: callers pass
values below 64; out-of-range indices fall back to the final character). -/
def b64Char (n : Nat) : Char := b64Alphabet.getD n '_'

/-- Core of `base64.urlsafe_b64encode`: big-endian 3-byte groups to 4
characters, with `=` padding for a 1- or 2-byte tail.  Python keeps the
padding characters; nothing strips them. -/
def b64EncodeAux : List Nat → List Char
  | a :: b :: c :: rest =>
      b64Char (a / 4) :: b64Char (a % 4 * 16 + b / 16) ::
      b64Char (b % 16 * 4 + c / 64) :: b64Char (c % 64) :: b64EncodeAux rest
  | [a, b] => [b64Char (a / 4), b64Char (a % 4 * 16 + b / 16), b64Char (b % 16 * 4), '=']
  | [a] => [b64Char (a / 4), b64Char (a % 4 * 16), '=', '=']
  | [] => []

/-- Models `base64.urlsafe_b64encode(bs).decode()` from the source. -/
def urlsafe_b64encode (bs : List Nat) : String := ⟨b64EncodeAux bs⟩

/-- Models `s.encode()` for the ASCII strings the source builds. -/
def strEncode (s : String) : List Nat := s.data.map Char.toNat

/-- Association-list lookup modelling `cookies[k]`: `KeyError` when the key
is absent. -/
def pyDictGet (d : List (String × String)) (k : String) : Except PyExn String :=
  match d.find? (fun p => p.1 == k) with
  | some p => .ok p.2
  | none => .error (.keyError k)

/-- Models the source line `cookie_name = cookie_name[f"{cookie_name}"]`:
subscripting a Python `str` with a `str` key unconditionally raises
`TypeError: string indices must be integers`. -/
def strSubscript (_s _k : String) : Except PyExn String :=
  .error (.typeError "string indices must be integers")

/-- Models evaluation of the name `cookie_answer` in `read_secure_cookie`:
no statement ever binds it, so Python raises `NameError`. -/
def undefinedName (n : String) : Except PyExn String :=
  .error (.nameError ("name " ++ n ++ " is not defined"))

/-- Models the `AESGCM(key)` constructor: `ValueError` unless the key is
128, 192 or 256 bits long. -/
def pyAESGCM (key : List Nat) : Except PyExn Unit :=
  if key.length = 16 ∨ key.length = 24 ∨ key.length = 32 then .ok ()
  else .error (.valueError "AESGCM key must be 128, 192, or 256 bits.")

/-- Models a bare `assert b`: `AssertionError` when the condition fails. -/
def pyAssert (b : Bool) : Except PyExn Unit :=
  if b then .ok () else .error .assertionError

/-- Models `datetime.timedelta(minutes=ttl)` where `ttl` is the `str`
produced by `decrypted1.split("|")`: CPython rejects a `str` component
with `TypeError`, whatever its content. -/
def pyTimedeltaMinutes (_ttl : String) : Except PyExn Int :=
  .error (.typeError "unsupported type for timedelta minutes component: str")

/-- Models unpacking `xs` into exactly three names, as in
`send_time1, ttl, salt = decrypted1.split("|")`. -/
def pyUnpack3 (xs : List String) : Except PyExn (String × String × String) :=
  match xs with
  | [a, b, c] => .ok (a, b, c)
  | _ => .error (.valueError "unpacking mismatch, expected 3 values")

/-- Models unpacking `xs` into exactly two names. -/
def pyUnpack2 (xs : List String) : Except PyExn (String × String) :=
  match xs with
  | [a, b] => .ok (a, b)
  | _ => .error (.valueError "unpacking mismatch, expected 2 values")

/-- Library routines the embedded code calls but whose internals no claim
reaches, plus the wall clock (seconds): AES-GCM encryption
`encrypt key nonce plaintext`, AES-GCM decryption composed with
`.decode()`, `base64.urlsafe_b64decode`, and `datetime.fromisoformat`
returning a timestamp in seconds. -/
structure PyLib where
  encrypt : List Nat → List Nat → List Nat → List Nat
  decrypt : List Nat → List Nat → List Nat → Except PyExn String
  b64decode : String → Except PyExn (List Nat)
  fromIso : String → Except PyExn Int
  now : Int

/-- The module constant `NONCE_SIZE = 12`. -/
def NONCE_SIZE : Nat := 12

/-- Embedding of `create_secure_cookie_pair(cookie_name, key, data,
ttl_minutes=5)`.  The random draws (`os.urandom(NONCE_SIZE)` twice,
`os.urandom(127)` for the salt) and `datetime.utcnow().isoformat()` are the
parameters `nonce1`, `nonce2`, `saltBytes`, `send_time`.  The source builds
`salt` by base64url-encoding the 127 random bytes, builds the two
pipe-delimited plaintexts, AES-GCM-encrypts each under its own nonce, and
returns the dict keyed `<name>_time` and `<name>` whose values are
`base64.urlsafe_b64encode(nonce + ciphertext)`. -/
def create_secure_cookie_pair (lib : PyLib) (cookie_name : String)
    (key : List Nat) (data : String) (ttl_minutes : Nat)
    (nonce1 nonce2 saltBytes : List Nat) (send_time : String) :
    Except PyExn (List (String × String)) := do
  let _ ← pyAESGCM key
  let salt := urlsafe_b64encode saltBytes
  let payload1 := strEncode (send_time ++ "|" ++ toString ttl_minutes ++ "|" ++ salt)
  let payload2 := strEncode (send_time ++ "|" ++ data)
  let encrypted1 := lib.encrypt key nonce1 payload1
  let encrypted2 := lib.encrypt key nonce2 payload2
  pure [(cookie_name ++ "_time", urlsafe_b64encode (nonce1 ++ encrypted1)),
        (cookie_name, urlsafe_b64encode (nonce2 ++ encrypted2))]

/-- The `try` body of `read_secure_cookie`, statement by statement in
source order.  Line 48 looks up `cookies[f"{cookie_name}_time"]`.  Line 49
reads `cookie_name = cookie_name[f"{cookie_name}"]`, which subscripts a
`str` with a `str` and therefore raises `TypeError` on every call; each
later statement — the `AESGCM` construction, the base64 decodes (one of
them of the never-bound name `cookie_answer`), the AES-GCM decryptions, the
pipe splits, the timestamp-equality assert and the TTL check whose
`timedelta(minutes=ttl)` receives a `str` — is kept here in source order
although the line-49 failure makes it unreachable. -/
def read_secure_cookie_body (lib : PyLib) (cookie_name : String)
    (cookies : List (String × String)) (key : List Nat) :
    Except PyExn (Bool × String) := do
  let cookie_send_time ← pyDictGet cookies (cookie_name ++ "_time")
  let _cookie_name ← strSubscript cookie_name cookie_name
  let _ ← pyAESGCM key
  let ct1 ← lib.b64decode cookie_send_time
  let cookie_answer ← undefinedName "cookie_answer"
  let ct2 ← lib.b64decode cookie_answer
  let nonce1 := ct1.take NONCE_SIZE
  let encrypted1 := ct1.drop NONCE_SIZE
  let nonce2 := ct2.take NONCE_SIZE
  let encrypted2 := ct2.drop NONCE_SIZE
  let decrypted1 ← lib.decrypt key nonce1 encrypted1
  let decrypted2 ← lib.decrypt key nonce2 encrypted2
  let (send_time1, ttl, _salt) ← pyUnpack3 (decrypted1.splitOn "|")
  let (send_time2, value) ← pyUnpack2 (decrypted2.splitOn "|")
  let _ ← pyAssert (send_time1 == send_time2)
  let ts ← lib.fromIso send_time1
  let td ← pyTimedeltaMinutes ttl
  let _ ← pyAssert (decide (lib.now - ts ≤ td))
  pure (true, value)

/-- Embedding of `read_secure_cookie(cookie_name, cookies, key)`: the body
above wrapped in `try: ... except Exception as e: return False, str(e)`.
Every exception the body can raise is an `Exception`, so the handler is
total. -/
def read_secure_cookie (lib : PyLib) (cookie_name : String)
    (cookies : List (String × String)) (key : List Nat) : Bool × String :=
  match read_secure_cookie_body lib cookie_name cookies key with
  | .ok r => r
  | .error e => (false, strOfExn e)

/-- The `try` body of `is_captcha_complete`: unpack the pair returned by
`read_secure_cookie("captcha_passed", cookies, PRIVATE_KEY)` as
`_, value`, discarding the boolean, and return `value == "true"`.  The
call returns normally on every input, so nothing here can raise. -/
def is_captcha_complete_body (lib : PyLib) (key : List Nat)
    (cookies : List (String × String)) : Except PyExn Bool := do
  let r := read_secure_cookie lib "captcha_passed" cookies key
  pure (r.2 == "true")

/-- Embedding of `is_captcha_complete(cookies)` with the process key made
explicit: the body above under `try: ... except: return False`. -/
def is_captcha_complete (lib : PyLib) (key : List Nat)
    (cookies : List (String × String)) : Bool :=
  match is_captcha_complete_body lib key cookies with
  | .ok b => b
  | .error _ => false

/-- Outcomes of the `verify_captcha` route handler: the strings it can
return, the success case carrying the cookies it sets, the error dict of
its `except` clause, and an exception escaping the handler (which FastAPI
turns into an HTTP 500). -/
inductive VerifyResult where
  | success (cookiesSet : List (String × String))
  | wrongAnswer
  | invalidCookie
  | captchaFailed (err : String)
  | raised (e : PyExn)
deriving DecidableEq

/-- Models the first statement of `verify_captcha`, `cookies =
request.cookies`: the handler has no `request` parameter and no global of
that name, so evaluating the name raises `NameError` — and this statement
sits before the `try` block. -/
def requestCookies : Except PyExn (List (String × String)) :=
  .error (.nameError "name request is not defined")

/-- Models the call `read_secure_cookie("captcha_answer", cookies)` inside
`verify_captcha`: the function requires three positional arguments, so the
two-argument call raises `TypeError` at the call site. -/
def read_secure_cookie_call2 (_cookie_name : String)
    (_cookies : List (String × String)) : Except PyExn (Bool × String) :=
  .error (.typeError "read_secure_cookie missing 1 required positional argument: key")

/-- Embedding of the `verify_captcha` handler.  `cookies = request.cookies`
runs first, outside the `try`; the `try` body then calls
`read_secure_cookie` with two arguments, and on a valid cookie whose value
equals the submitted answer would mint a `captcha_passed` pair with payload
`"true"` and the default TTL of 5 via `create_secure_cookie_pair` and
return Success; a mismatched answer returns the wrong-answer string and an
invalid cookie the invalid-cookie string.  The random draws and the
timestamp of the would-be minted pair are the trailing parameters. -/
def verify_captcha (lib : PyLib) (key : List Nat) (answer : String)
    (nonce1 nonce2 saltBytes : List Nat) (send_time : String) : VerifyResult :=
  match requestCookies with
  | .error e => .raised e
  | .ok cookies =>
    match (do
      let (validity, captcha_value) ← read_secure_cookie_call2 "captcha_answer" cookies
      if validity then
        if captcha_value == answer then do
          let cookie_pair ← create_secure_cookie_pair lib "captcha_passed" key "true" 5
            nonce1 nonce2 saltBytes send_time
          pure (VerifyResult.success cookie_pair)
        else
          pure VerifyResult.wrongAnswer
      else
        pure VerifyResult.invalidCookie : Except PyExn VerifyResult) with
    | .ok r => r
    | .error e => .captchaFailed (strOfExn e)

/-- State of the key file at the path given to `generate_or_load_key`:
absent, present with readable contents, or present but failing to read
(an `OSError` from `open` or `read`). -/
inductive FileState where
  | absent
  | readable (contents : List Nat)
  | unreadable
deriving DecidableEq

/-- File-system environment for `generate_or_load_key`: the state of the
key file and whether writing a new file at the path succeeds. -/
structure FSEnv where
  file : FileState
  writeOk : Bool

/-- Models `os.path.exists(path)`. -/
def os_path_exists (fs : FSEnv) : Bool :=
  match fs.file with
  | .absent => false
  | _ => true

/-- Embedding of `generate_or_load_key(path)`.  If the path exists the
source returns `open(path, "rb").read()` verbatim with no validation of
length or format; a read failure propagates as a raw `OSError`.  Otherwise
it draws `freshKey` (modelling `AESGCM.generate_key(bit_length=256)`, 32
random bytes), writes it to the path — a write failure propagating as a raw
`OSError` — and returns it.  No `KeyStoreError` type exists anywhere in the
source. -/
def generate_or_load_key (fs : FSEnv) (freshKey : List Nat) :
    Except PyExn (List Nat) :=
  if os_path_exists fs then
    match fs.file with
    | .readable c => .ok c
    | _ => .error (.osError "read failed")
  else if fs.writeOk then .ok freshKey
  else .error (.osError "write failed")

/-- A 256-bit all-zero key, used to instantiate witnesses. -/
def zeroKey : List Nat := List.replicate 32 0

/-- Concrete 12-byte nonce for witnesses. -/
def nonceA : List Nat := List.replicate 12 1

/-- Second concrete 12-byte nonce for witnesses. -/
def nonceB : List Nat := List.replicate 12 2

/-- Concrete timestamp string for witnesses, in the shape
`datetime.utcnow().isoformat()` produces. -/
def t0 : String := "2025-01-01T00:00:00"

/-- A second, different timestamp string for witnesses. -/
def t1 : String := "2025-01-01T00:00:01"

/-- Concrete instantiation of the library record for witnesses: an
encryption stand-in with the true AES-GCM length behaviour (ciphertext is
plaintext length plus the 16-byte tag), a decryption that rejects, and a
strict base64 decoder stand-in; none of these choices can influence any
theorem below, which all quantify over the record. -/
def toyLib : PyLib where
  encrypt := fun _ _ pt => pt ++ List.replicate 16 0
  decrypt := fun _ _ _ => .error .invalidTag
  b64decode := fun _ => .ok []
  fromIso := fun _ => .error (.valueError "invalid isoformat string")
  now := 0

/-- The body of `read_secure_cookie` reduces, on every input, to the error
raised by its first two statements: `KeyError` when the `<name>_time`
cookie is absent, otherwise the `TypeError` of the string-subscripting at
line 49.  Everything after line 49 is unreachable, whatever the library
routines, the clock or the cookie contents. -/
theorem read_secure_cookie_body_eq (lib : PyLib) (cookie_name : String)
    (cookies : List (String × String)) (key : List Nat) :
    read_secure_cookie_body lib cookie_name cookies key =
      match cookies.find? (fun p => p.1 == cookie_name ++ "_time") with
      | some _ => .error (.typeError "string indices must be integers")
      | none => .error (.keyError (cookie_name ++ "_time")) := by
  unfold read_secure_cookie_body
  cases h : cookies.find? (fun p => p.1 == cookie_name ++ "_time") <;>
    simp [pyDictGet, h, strSubscript, Bind.bind, Except.bind]

/-- On every input, `read_secure_cookie` reports failure: its boolean
component is `false`. -/
theorem read_secure_cookie_fst_false (lib : PyLib) (cookie_name : String)
    (cookies : List (String × String)) (key : List Nat) :
    (read_secure_cookie lib cookie_name cookies key).1 = false := by
  rw [read_secure_cookie, read_secure_cookie_body_eq]
  cases cookies.find? (fun p => p.1 == cookie_name ++ "_time") <;> rfl

/-- Freshly created answer-token pair on concrete inputs, for witnesses:
payload `hello`, TTL 5, the concrete nonces and timestamp above, and an
empty salt draw. -/
def c1pair : List (String × String) :=
  (create_secure_cookie_pair toyLib "captcha_answer" zeroKey "hello" 5
    nonceA nonceB [] t0).toOption.getD []

/-- Freshly created passed-token pair on concrete inputs, for the wire
format claim: payload `true`, TTL 5. -/
def c8pair : List (String × String) :=
  (create_secure_cookie_pair toyLib "captcha_passed" zeroKey "true" 5
    nonceA nonceB [] t0).toOption.getD []

/-- Freshly created passed-token pair on concrete inputs, for the
completion gating claim. -/
def c2pair : List (String × String) :=
  (create_secure_cookie_pair toyLib "captcha_passed" zeroKey "true" 5
    nonceA nonceB [] t1).toOption.getD []

/-- Two answer-token pairs created at different timestamps and the
mix-and-match of the time field of the first with the value field of the
second, for the cross-field claim. -/
def c4pairA : List (String × String) :=
  (create_secure_cookie_pair toyLib "captcha_answer" zeroKey "circle-square" 5
    nonceA nonceA [] t0).toOption.getD []

/-- Second pair for the cross-field claim, issued at the later timestamp. -/
def c4pairB : List (String × String) :=
  (create_secure_cookie_pair toyLib "captcha_answer" zeroKey "circle-square" 5
    nonceB nonceB [] t1).toOption.getD []

/-- No alphabet character is the padding character. -/
theorem b64Char_ne_pad (n : Nat) : b64Char n ≠ '=' := by
  by_cases h : n < 64
  · interval_cases n <;> decide
  · have hlen : b64Alphabet.length ≤ n := by
      have : b64Alphabet.length = 64 := by decide
      omega
    simp [b64Char, List.getD, List.getElem?_eq_none hlen]

/-- Padding appears in the base64url encoding exactly when the byte length
is not a multiple of three. -/
theorem pad_mem_b64EncodeAux (bs : List Nat) :
    '=' ∈ b64EncodeAux bs ↔ bs.length % 3 ≠ 0 := by
  induction bs using b64EncodeAux.induct with
  | case1 a b c rest ih =>
      have h1 := b64Char_ne_pad (a / 4)
      have h2 := b64Char_ne_pad (a % 4 * 16 + b / 16)
      have h3 := b64Char_ne_pad (b % 16 * 4 + c / 64)
      have h4 := b64Char_ne_pad (c % 64)
      simp only [b64EncodeAux, List.mem_cons, List.length_cons]
      constructor
      · rintro (h | h | h | h | h)
        · exact absurd h.symm h1
        · exact absurd h.symm h2
        · exact absurd h.symm h3
        · exact absurd h.symm h4
        · intro hmod
          exact (ih.mp h) (by omega)
      · intro hmod
        right; right; right; right
        exact ih.mpr (by omega)
  | case2 a b => simp [b64EncodeAux]
  | case3 a => simp [b64EncodeAux]
  | case4 => simp [b64EncodeAux]

/-- When the `<name>_time` cookie is present, `read_secure_cookie` returns
exactly the pair `(False, str(TypeError))` produced by the line-49 slip. -/
theorem read_secure_cookie_eq_typeerror (lib : PyLib) (cookie_name : String)
    (cookies : List (String × String)) (key : List Nat) (v : String × String)
    (h : cookies.find? (fun p => p.1 == cookie_name ++ "_time") = some v) :
    read_secure_cookie lib cookie_name cookies key =
      (false, "string indices must be integers") := by
  rw [read_secure_cookie, read_secure_cookie_body_eq, h]
  rfl

/-- Shape of a successfully created pair: whatever the library record and
random draws, the dict is the two-entry association list keyed
`<name>_time` and `<name>` holding the base64url encodings of nonce plus
ciphertext. -/
theorem create_ok_shape (lib : PyLib) (cookie_name : String) (key : List Nat)
    (data : String) (ttl_minutes : Nat) (nonce1 nonce2 saltBytes : List Nat)
    (send_time : String) (pair : List (String × String))
    (h : create_secure_cookie_pair lib cookie_name key data ttl_minutes
      nonce1 nonce2 saltBytes send_time = .ok pair) :
    pair = [(cookie_name ++ "_time",
             urlsafe_b64encode (nonce1 ++ lib.encrypt key nonce1
               (strEncode (send_time ++ "|" ++ toString ttl_minutes ++ "|" ++
                 urlsafe_b64encode saltBytes)))),
            (cookie_name,
             urlsafe_b64encode (nonce2 ++ lib.encrypt key nonce2
               (strEncode (send_time ++ "|" ++ data))))] := by
  unfold create_secure_cookie_pair at h
  cases hk : pyAESGCM key with
  | ok u =>
      rw [hk] at h
      simp only [Bind.bind, Except.bind, pure, Except.pure, Except.ok.injEq] at h
      exact h.symm
  | error e =>
      rw [hk] at h
      simp [Bind.bind, Except.bind] at h

/-- Unfolding of `is_captcha_complete`: the body never raises, so the
result is exactly the comparison of the second component of
`read_secure_cookie` with the marker string. -/
theorem is_captcha_complete_eq (lib : PyLib) (key : List Nat)
    (cookies : List (String × String)) :
    is_captcha_complete lib key cookies =
      ((read_secure_cookie lib "captcha_passed" cookies key).2 == "true") := rfl

/-- Claim C1: for every payload string and every TTL, decoding a token
pair with read_secure_cookie immediately after it was created by
create_secure_cookie_pair with the same cookie name and key is claimed to
succeed with the encoded payload.  The code refutes this: line 49 of
api_server.py subscripts the `str` variable `cookie_name` with a `str`
key, so the decode body raises `TypeError` on every call and the function
returns `(False, str(e))`; the round trip fails for every payload, TTL,
key, nonce draw and timestamp. -/
theorem c1_round_trip_fails (lib : PyLib) (cookie_name : String)
    (key : List Nat) (data : String) (ttl_minutes : Nat)
    (nonce1 nonce2 saltBytes : List Nat) (send_time : String)
    (pair : List (String × String))
    (_h : create_secure_cookie_pair lib cookie_name key data ttl_minutes
      nonce1 nonce2 saltBytes send_time = .ok pair) :
    (read_secure_cookie lib cookie_name pair key).1 = false ∧
    read_secure_cookie lib cookie_name pair key ≠ (true, data) := by
  refine ⟨read_secure_cookie_fst_false lib cookie_name pair key, fun hc => ?_⟩
  have hf := read_secure_cookie_fst_false lib cookie_name pair key
  rw [hc] at hf
  exact Bool.noConfusion hf

/-- Witness for C1 at concrete inputs: payload `hello`, TTL 5, the zero
key, concrete nonces and timestamp. -/
theorem c1_round_trip_fails_witness :
    (read_secure_cookie toyLib "captcha_answer" c1pair zeroKey).1 = false ∧
    read_secure_cookie toyLib "captcha_answer" c1pair zeroKey ≠ (true, "hello") :=
  c1_round_trip_fails toyLib "captcha_answer" zeroKey "hello" 5
    nonceA nonceB [] t0 c1pair (by rfl)

/-- Claim C2: is_captcha_complete is claimed to return true for a freshly
issued passed-token pair presented within its TTL.  The code refutes this
half of the claim (and makes the false-on-failure half hold vacuously):
because read_secure_cookie fails on every input with the line-49
`TypeError`, the string it returns is an error message, never the marker
`true`, so is_captcha_complete is false even on a pair minted by
create_secure_cookie_pair an instant earlier. -/
theorem c2_completion_gating_fails (lib : PyLib) (key : List Nat)
    (nonce1 nonce2 saltBytes : List Nat) (send_time : String)
    (pair : List (String × String))
    (h : create_secure_cookie_pair lib "captcha_passed" key "true" 5
      nonce1 nonce2 saltBytes send_time = .ok pair) :
    is_captcha_complete lib key pair = false := by
  have hp := create_ok_shape lib "captcha_passed" key "true" 5
    nonce1 nonce2 saltBytes send_time pair h
  have hfind : pair.find? (fun p => p.1 == "captcha_passed" ++ "_time") =
      some ("captcha_passed" ++ "_time",
        urlsafe_b64encode (nonce1 ++ lib.encrypt key nonce1
          (strEncode (send_time ++ "|" ++ toString 5 ++ "|" ++
            urlsafe_b64encode saltBytes)))) := by
    rw [hp]
    simp [List.find?]
  rw [is_captcha_complete_eq,
    read_secure_cookie_eq_typeerror lib "captcha_passed" pair key _ hfind]
  rfl

/-- Witness for C2 at concrete inputs: the zero key, concrete nonces and
timestamp, payload fixed to the marker string. -/
theorem c2_completion_gating_fails_witness :
    is_captcha_complete toyLib zeroKey c2pair = false :=
  c2_completion_gating_fails toyLib zeroKey nonceA nonceB [] t1 c2pair (by rfl)

/-- Claim C3: verify_captcha is claimed to issue a fresh captcha_passed
pair when decoding succeeds and the decoded payload equals the submitted
answer, and to issue nothing on failure.  The code refutes the issuance
half: its first statement `cookies = request.cookies` evaluates the
never-bound name `request` outside the `try` block, so every call raises
`NameError` (an HTTP 500), no branch runs, and in particular no Success
outcome and no new token pair is ever produced — for every submitted
answer, key, library record and random draw. -/
theorem c3_verify_always_raises (lib : PyLib) (key : List Nat)
    (answer : String) (nonce1 nonce2 saltBytes : List Nat) (send_time : String) :
    verify_captcha lib key answer nonce1 nonce2 saltBytes send_time =
      .raised (.nameError "name request is not defined") ∧
    ∀ cookiesSet, verify_captcha lib key answer nonce1 nonce2 saltBytes send_time ≠
      VerifyResult.success cookiesSet :=
  ⟨rfl, fun _ hc => VerifyResult.noConfusion hc⟩

/-- Claim C4: combining the time field of one issuance with the value
field of another is claimed to fail through the exact timestamp-equality
check, reported as an Inconsistent error kind.  The code does reject such
a mixed pair, but not for that reason: the line-49 `TypeError` fires
before any ciphertext is even base64-decoded, so the timestamp comparison
at line 63 is dead code, and the failure carries no error kind — only the
pair `(False, str(TypeError))` computed here for every pair of issuances
with any two timestamps. -/
theorem c4_cross_field_check_unreachable (lib : PyLib) (cookie_name : String)
    (key : List Nat) (dataA dataB : String) (ttlA ttlB : Nat)
    (n1 n2 n3 n4 sA sB : List Nat) (tA tB : String)
    (pairA pairB : List (String × String))
    (hA : create_secure_cookie_pair lib cookie_name key dataA ttlA n1 n2 sA tA = .ok pairA)
    (hB : create_secure_cookie_pair lib cookie_name key dataB ttlB n3 n4 sB tB = .ok pairB)
    (_hne : tA ≠ tB) :
    read_secure_cookie lib cookie_name (pairA.take 1 ++ pairB.drop 1) key =
      (false, "string indices must be integers") := by
  have hpA := create_ok_shape lib cookie_name key dataA ttlA n1 n2 sA tA pairA hA
  have hpB := create_ok_shape lib cookie_name key dataB ttlB n3 n4 sB tB pairB hB
  refine read_secure_cookie_eq_typeerror lib cookie_name _ key
    (cookie_name ++ "_time",
      urlsafe_b64encode (n1 ++ lib.encrypt key n1
        (strEncode (tA ++ "|" ++ toString ttlA ++ "|" ++ urlsafe_b64encode sA)))) ?_
  rw [hpA, hpB]
  simp [List.find?]

/-- Witness for C4: two concrete issuances one second apart, decoding the
time field of the first with the value field of the second. -/
theorem c4_cross_field_check_unreachable_witness :
    read_secure_cookie toyLib "captcha_answer" (c4pairA.take 1 ++ c4pairB.drop 1) zeroKey =
      (false, "string indices must be integers") :=
  c4_cross_field_check_unreachable toyLib "captcha_answer" zeroKey
    "circle-square" "circle-square" 5 5 nonceA nonceA nonceB nonceB [] [] t0 t1
    c4pairA c4pairB (by rfl) (by rfl) (by decide)

/-- Claim C5: with TTL 5 minutes, decoding at 4:59 elapsed is claimed to
succeed and decoding at 5:01 to fail Expired.  The code refutes the
boundary: whatever the current clock value — 4:59 after issuance, 5:01
after, or any other instant — read_secure_cookie returns the same
`(False, str(TypeError))` from line 49; moreover the TTL parsed from the
time plaintext stays a `str`, so the expiry comparison at line 66 would
raise `TypeError` in `timedelta(minutes=ttl)` even if line 49 were fixed.
The theorem quantifies over the clock `now` with everything else fixed. -/
theorem c5_expiry_never_checked (lib : PyLib) (cookie_name : String)
    (key : List Nat) (data : String) (nonce1 nonce2 saltBytes : List Nat)
    (send_time : String) (pair : List (String × String)) (now : Int)
    (h : create_secure_cookie_pair lib cookie_name key data 5
      nonce1 nonce2 saltBytes send_time = .ok pair) :
    read_secure_cookie { lib with now := now } cookie_name pair key =
      (false, "string indices must be integers") := by
  have hp := create_ok_shape lib cookie_name key data 5
    nonce1 nonce2 saltBytes send_time pair h
  refine read_secure_cookie_eq_typeerror { lib with now := now } cookie_name pair key
    (cookie_name ++ "_time",
      urlsafe_b64encode (nonce1 ++ lib.encrypt key nonce1
        (strEncode (send_time ++ "|" ++ toString 5 ++ "|" ++ urlsafe_b64encode saltBytes)))) ?_
  rw [hp]
  simp [List.find?]

/-- Witness for C5: the concrete answer pair of C1 decoded with the clock
at 299 seconds after issuance, the 4:59 instant of the claim. -/
theorem c5_expiry_never_checked_witness :
    read_secure_cookie { toyLib with now := 299 } "captcha_answer" c1pair zeroKey =
      (false, "string indices must be integers") :=
  c5_expiry_never_checked toyLib "captcha_answer" zeroKey "hello"
    nonceA nonceB [] t0 c1pair 299 (by rfl)

/-- Claim C7 counterexample: the claim says generate_or_load_key fails
fatally with KeyStoreError when the path exists but its contents are
malformed.  With the key file present holding the three bytes 1, 2, 3 —
nowhere near 256 bits — the function returns those bytes verbatim as the
key and reports no error at all. -/
theorem c7_malformed_key_accepted :
    generate_or_load_key ⟨FileState.readable [1, 2, 3], true⟩ (List.replicate 32 9) =
      .ok [1, 2, 3] ∧ ([1, 2, 3] : List Nat).length ≠ 32 :=
  ⟨rfl, by decide⟩

/-- Claim C7 as amended: generate_or_load_key returns the file contents
verbatim whenever the path exists and reading succeeds, with no validation
of length or format; when the path is absent it persists and returns the
freshly generated 256-bit key; a read failure, and a write failure for a
newly generated key, surface as raw OS errors (which abort startup, since
the caller runs before the server starts serving) — no KeyStoreError type
exists. -/
theorem c7_load_or_generate (fs : FSEnv) (freshKey : List Nat) :
    (∀ c, fs.file = FileState.readable c →
      generate_or_load_key fs freshKey = .ok c) ∧
    (fs.file = FileState.absent → fs.writeOk = true →
      generate_or_load_key fs freshKey = .ok freshKey) ∧
    (fs.file = FileState.unreadable →
      generate_or_load_key fs freshKey = .error (.osError "read failed")) ∧
    (fs.file = FileState.absent → fs.writeOk = false →
      generate_or_load_key fs freshKey = .error (.osError "write failed")) := by
  obtain ⟨file, writeOk⟩ := fs
  cases file <;> cases writeOk <;>
    refine ⟨fun c hc => ?_, fun ha hw => ?_, fun hu => ?_, fun ha hw => ?_⟩ <;>
    first
      | rfl
      | (cases hc; rfl)
      | exact FileState.noConfusion hc
      | exact FileState.noConfusion ha
      | exact FileState.noConfusion hu
      | exact Bool.noConfusion hw

/-- Witness for C7 as amended: a readable key file holding the zero key is
returned verbatim. -/
theorem c7_load_or_generate_witness :
    generate_or_load_key ⟨FileState.readable zeroKey, true⟩ (List.replicate 32 9) =
      .ok zeroKey :=
  (c7_load_or_generate ⟨FileState.readable zeroKey, true⟩ (List.replicate 32 9)).1
    zeroKey rfl

/-- Claim C8 counterexample: the claim says each cookie value is the
base64url encoding WITHOUT padding of nonce plus ciphertext.  On the
concrete passed-token pair (payload `true`, 19-character timestamp, AES-GCM
tag making the value-field input 52 bytes, not a multiple of 3) the value
emitted by create_secure_cookie_pair contains the padding character `=`,
which a padding-free base64url encoding never contains. -/
theorem c8_padding_present :
    ((c8pair.getD 1 ("", "")).2.data.contains '=') = true := by decide

/-- Claim C8 as amended: every pair returned by create_secure_cookie_pair
maps exactly the two distinct keys `<name>_time` and `<name>`, and each
value is the standard base64url encoding WITH `=` padding of the nonce
concatenated with the AEAD ciphertext; the padding character appears
exactly when that byte string is not a multiple of three long (as in
Python, whose urlsafe_b64encode keeps padding). -/
theorem c8_wire_format (lib : PyLib) (cookie_name : String) (key : List Nat)
    (data : String) (ttl_minutes : Nat) (nonce1 nonce2 saltBytes : List Nat)
    (send_time : String) (hkey : key.length = 32) :
    ∃ v1 v2,
      create_secure_cookie_pair lib cookie_name key data ttl_minutes
        nonce1 nonce2 saltBytes send_time =
        .ok [(cookie_name ++ "_time", v1), (cookie_name, v2)] ∧
      cookie_name ++ "_time" ≠ cookie_name ∧
      v1 = urlsafe_b64encode (nonce1 ++ lib.encrypt key nonce1
        (strEncode (send_time ++ "|" ++ toString ttl_minutes ++ "|" ++
          urlsafe_b64encode saltBytes))) ∧
      v2 = urlsafe_b64encode (nonce2 ++ lib.encrypt key nonce2
        (strEncode (send_time ++ "|" ++ data))) ∧
      ('=' ∈ v1.data ↔
        (nonce1 ++ lib.encrypt key nonce1
          (strEncode (send_time ++ "|" ++ toString ttl_minutes ++ "|" ++
            urlsafe_b64encode saltBytes))).length % 3 ≠ 0) ∧
      ('=' ∈ v2.data ↔
        (nonce2 ++ lib.encrypt key nonce2
          (strEncode (send_time ++ "|" ++ data))).length % 3 ≠ 0) := by
  refine ⟨_, _, ?_, ?_, rfl, rfl, pad_mem_b64EncodeAux _, pad_mem_b64EncodeAux _⟩
  · unfold create_secure_cookie_pair pyAESGCM
    rw [hkey]
    simp [Bind.bind, Except.bind, pure, Except.pure]
  · intro hc
    have hlen := congrArg String.length hc
    rw [String.length_append] at hlen
    have h5 : "_time".length = 5 := rfl
    omega

/-- Witness for C8 as amended, on the concrete passed-token pair. -/
theorem c8_wire_format_witness :
    ∃ v1 v2,
      create_secure_cookie_pair toyLib "captcha_passed" zeroKey "true" 5
        nonceA nonceB [] t0 =
        .ok [("captcha_passed" ++ "_time", v1), ("captcha_passed", v2)] ∧
      "captcha_passed" ++ "_time" ≠ "captcha_passed" ∧
      v1 = urlsafe_b64encode (nonceA ++ toyLib.encrypt zeroKey nonceA
        (strEncode (t0 ++ "|" ++ toString 5 ++ "|" ++ urlsafe_b64encode []))) ∧
      v2 = urlsafe_b64encode (nonceB ++ toyLib.encrypt zeroKey nonceB
        (strEncode (t0 ++ "|" ++ "true"))) ∧
      ('=' ∈ v1.data ↔
        (nonceA ++ toyLib.encrypt zeroKey nonceA
          (strEncode (t0 ++ "|" ++ toString 5 ++ "|" ++
            urlsafe_b64encode []))).length % 3 ≠ 0) ∧
      ('=' ∈ v2.data ↔
        (nonceB ++ toyLib.encrypt zeroKey nonceB
          (strEncode (t0 ++ "|" ++ "true"))).length % 3 ≠ 0) :=
  c8_wire_format toyLib "captcha_passed" zeroKey "true" 5 nonceA nonceB [] t0
    (by decide)

/-- Claim C9 (implicit): read_secure_cookie is total — whatever the
cookies mapping and key, the try body either returns normally, in which
case its pair is passed through, or raises, in which case the handler
`except Exception as e: return False, str(e)` turns the exception into
`(False, str(e))`; no exception escapes.  Confirmed: every failure the
body can produce is an `Exception`, and the wrapper maps it exactly as
stated. -/
theorem c9_read_secure_cookie_total (lib : PyLib) (cookie_name : String)
    (cookies : List (String × String)) (key : List Nat) :
    (∀ r, read_secure_cookie_body lib cookie_name cookies key = .ok r →
      read_secure_cookie lib cookie_name cookies key = r) ∧
    (∀ e, read_secure_cookie_body lib cookie_name cookies key = .error e →
      read_secure_cookie lib cookie_name cookies key = (false, strOfExn e)) := by
  constructor <;> intro x hx <;> rw [read_secure_cookie, hx]

/-- Witness for C9: an empty cookies mapping, where the body raises
`KeyError` on the absent time cookie and the wrapper surfaces it as
`(False, str(e))`. -/
theorem c9_read_secure_cookie_total_witness :
    read_secure_cookie toyLib "captcha_passed" [] zeroKey =
      (false, strOfExn (.keyError ("captcha_passed" ++ "_time"))) :=
  (c9_read_secure_cookie_total toyLib "captcha_passed" [] zeroKey).2
    (.keyError ("captcha_passed" ++ "_time")) (by rfl)

/-- Claim C10 (implicit): is_captcha_complete unpacks the result of
read_secure_cookie as `_, value`, discarding the boolean success flag, and
returns exactly the comparison of the string component with the marker
`true` — for every cookies mapping and key, the decision is a function of
the second component alone.  Confirmed. -/
theorem c10_success_flag_ignored (lib : PyLib) (key : List Nat)
    (cookies : List (String × String)) :
    is_captcha_complete lib key cookies =
      ((read_secure_cookie lib "captcha_passed" cookies key).2 == "true") := rfl
